import Mathlib

/-!
Verification of `crates/bevy_pbr/src/volumetric_fog/upsampling_pipeline.rs`:
the per-frame preparation logic of the volumetric-fog upsampling/compositing
stage.  The data model and every operation below are shallow embeddings of the
Rust source; collaborators that live outside this module (the camera
accessors, `AspectRatio`, the ECS plumbing, the pipeline cache) are modelled
from the specification's description of them, each marked as such in its doc
comment.
-/

namespace VolumetricFogUpsampling

/-- Unsigned 2D vector of pixel coordinates (`bevy_math::UVec2`). -/
structure UVec2 where
  x : Nat
  y : Nat
deriving DecidableEq, Repr

/-- Axis-aligned pixel rectangle (`bevy_math::URect`). -/
structure URect where
  min : UVec2
  max : UVec2
deriving DecidableEq, Repr

/-- Modelled from the spec: "View: represents one camera/render target.
Attributes: viewport origin+size (pixels), target framebuffer size, active
flag, high-dynamic-range flag."  The three camera accessors used by
`extract_component` are modelled as stored optional attributes of the view,
read directly. -/
structure Camera where
  physical_viewport_rect : Option URect
  physical_viewport_size : Option UVec2
  physical_target_size : Option UVec2
  is_active : Bool
  hdr : Bool
deriving DecidableEq, Repr

/-- Modelled from the spec: "FogSettings: marker/config indicating fog
compositing is requested for a view" (`VolumetricFog` lives in the module's
`mod.rs`, outside the file under study); its contents are opaque config data
carried through unchanged. -/
structure VolumetricFog where
  config : Nat
deriving DecidableEq, Repr

/-- Per-view uniform uploaded for the upsampling pass.  The `f32` aspect
ratio is embedded as an exact rational. -/
structure UpsamplingUniforms where
  aspect : ℚ
deriving DecidableEq, Repr

/-- Modelled from the spec: `bevy_math::AspectRatio::try_from_pixels` is a
"guarded division" that fails exactly when a dimension is zero; on success
`ratio()` is width divided by height. -/
def AspectRatio.try_from_pixels (x y : Nat) : Option ℚ :=
  if x ≠ 0 ∧ y ≠ 0 then some ((x : ℚ) / (y : ℚ)) else none

/-- Message of the `expect` on the aspect-ratio computation in
`extract_component`. -/
def aspectExpectMsg : String := "Valid screen size values for Bloom settings"

/-- Shallow embedding of `<VolumetricFog as ExtractComponent>::extract_component`.
The Rust `expect` (a panic) is embedded as the `Except.error` branch, so that
its (un)reachability can be stated. -/
def extract_component (volumetric_fog : VolumetricFog) (camera : Camera) :
    Except String (Option (VolumetricFog × UpsamplingUniforms)) :=
  match camera.physical_viewport_rect, camera.physical_viewport_size,
      camera.physical_target_size, camera.is_active, camera.hdr with
  | some _, some size, some _, true, true =>
    if size.x ≠ 0 ∧ size.y ≠ 0 then
      match AspectRatio.try_from_pixels size.x size.y with
      | some ratio => Except.ok (some (volumetric_fog, { aspect := ratio }))
      | none => Except.error aspectExpectMsg
    else Except.ok none
  | _, _, _, _, _ => Except.ok none

/-- The eligibility predicate exactly as the spec words it ("Returns `Some`
iff all of: ... non-null viewport rectangle, non-null viewport size with both
dimensions > 0, non-null target framebuffer size, `active == true`,
`hdr == true`"), for comparison with the source-derived `extract_component`. -/
def spec_eligible (camera : Camera) : Prop :=
  camera.physical_viewport_rect.isSome = true ∧
    (∃ size, camera.physical_viewport_size = some size ∧ 0 < size.x ∧ 0 < size.y) ∧
    camera.physical_target_size.isSome = true ∧
    camera.is_active = true ∧ camera.hdr = true

/-! ### GPU resource model (samplers, bind groups) -/

/-- Texture filtering mode (`wgpu::FilterMode`). -/
inductive FilterMode
  | Nearest
  | Linear
deriving DecidableEq, Repr

/-- Texture address mode (`wgpu::AddressMode`). -/
inductive AddressMode
  | ClampToEdge
  | Repeat
  | MirrorRepeat
deriving DecidableEq, Repr

/-- The sampler configuration fields set by `prepare_upsampling_bind_groups`
(the remaining `..Default::default()` fields are not observed by any claim). -/
structure SamplerDescriptor where
  min_filter : FilterMode
  mag_filter : FilterMode
  address_mode_u : AddressMode
  address_mode_v : AddressMode
deriving DecidableEq, Repr

/-- A created sampler: its creation index on the device plus its
configuration. -/
structure Sampler where
  id : Nat
  descriptor : SamplerDescriptor
deriving DecidableEq, Repr

/-- Modelled from the spec: GPU resource creation is a synchronous enqueue
operation.  The device tracks how many samplers it has created, so that
"invoked once per frame (not once per view)" is observable. -/
structure RenderDevice where
  next_sampler_id : Nat
deriving DecidableEq, Repr

/-- Embedding of `RenderDevice::create_sampler`: allocates a fresh sampler with the given
configuration. -/
def RenderDevice.create_sampler (device : RenderDevice) (desc : SamplerDescriptor) :
    Sampler × RenderDevice :=
  ({ id := device.next_sampler_id, descriptor := desc },
    { next_sampler_id := device.next_sampler_id + 1 })

/-- The kinds of entries of the bind group layout built in
`UpsamplingPipeline::from_world` (fragment-stage visibility). -/
inductive BindingTypeKind
  | texture_2d_float_filterable
  | sampler_filtering
  | uniform_buffer_dynamic_offset
deriving DecidableEq, Repr

/-- A bind group layout: label plus entry kinds. -/
structure BindGroupLayout where
  label : String
  entries : List BindingTypeKind
deriving DecidableEq, Repr

/-- The resource holding the upsampling pipeline's bind group layout. -/
structure UpsamplingPipeline where
  bind_group_layout : BindGroupLayout
deriving DecidableEq, Repr

def fog_upsampling_bind_group_layout_label : String := "fog_upsampling_bind_group_layout"

/-- Embedding of `<UpsamplingPipeline as FromWorld>::from_world`: builds the sequential
layout (texture, sampler, dynamic-offset uniform buffer). -/
def UpsamplingPipeline.from_world : UpsamplingPipeline :=
  { bind_group_layout :=
      { label := fog_upsampling_bind_group_layout_label
        entries := [BindingTypeKind.texture_2d_float_filterable,
          BindingTypeKind.sampler_filtering,
          BindingTypeKind.uniform_buffer_dynamic_offset] } }

/-- A binding into the aggregated uniform buffer (the value of
`ComponentUniforms::binding` when the aggregator holds a buffer). -/
structure BufferBinding where
  id : Nat
deriving DecidableEq, Repr

/-- Modelled from the spec: the "external per-component uniform-buffer
manager that aggregates all views' uniforms into one buffer"; `binding` is
`none` when the aggregator has no buffer to bind. -/
structure ComponentUniforms where
  binding : Option BufferBinding
deriving DecidableEq, Repr

/-- Modelled from the spec: "FogTexture: the low-resolution fog color buffer
for a view, produced by an upstream fog-rendering pass (external); this core
only reads a texture-view handle to it."  `view` is that handle. -/
structure VolumetricFogTexture where
  view : Nat
deriving DecidableEq, Repr

/-- A created bind group: label, layout and the three sequential entries
(fog texture view, sampler, uniform-buffer binding). -/
structure BindGroup where
  label : String
  layout : BindGroupLayout
  texture_view_entry : Nat
  sampler_entry : Sampler
  uniforms_entry : BufferBinding
deriving DecidableEq, Repr

/-- Embedding of `RenderDevice::create_bind_group` with the sequential entries used by
`prepare_upsampling_bind_groups`. -/
def RenderDevice.create_bind_group (label : String) (layout : BindGroupLayout)
    (texture_view : Nat) (s : Sampler) (b : BufferBinding) : BindGroup :=
  { label := label, layout := layout, texture_view_entry := texture_view,
    sampler_entry := s, uniforms_entry := b }

/-- The per-view component inserted by `prepare_upsampling_bind_groups`. -/
structure UpsamplingBindGroup where
  upsampling_bind_group : BindGroup
  sampler : Sampler
deriving DecidableEq, Repr

/-- View entity identifier (`bevy_ecs::Entity`). -/
abbrev Entity := Nat

/-- The `SamplerDescriptor` literal in `prepare_upsampling_bind_groups`. -/
def upsamplingSamplerDescriptor : SamplerDescriptor :=
  { min_filter := FilterMode.Linear, mag_filter := FilterMode.Linear,
    address_mode_u := AddressMode.ClampToEdge, address_mode_v := AddressMode.ClampToEdge }

def bloom_upsampling_bind_group_label : String := "bloom_upsampling_bind_group"

/-- Panic message of `Option::unwrap` on `None` (the
`uniforms.binding().unwrap()` call). -/
def unwrapNoneMsg : String := "called Option.unwrap on a None value"

/-- The per-view loop body of `prepare_upsampling_bind_groups`: each
iteration unwraps the uniform binding (panicking — `Except.error` — when the
aggregator has none), builds the bind group and inserts the component. -/
def buildBindGroups (pipeline : UpsamplingPipeline) (s : Sampler)
    (uniforms : ComponentUniforms) :
    List (Entity × VolumetricFogTexture) →
      Except String (List (Entity × UpsamplingBindGroup))
  | [] => Except.ok []
  | (entity, tex) :: rest =>
    match uniforms.binding with
    | none => Except.error unwrapNoneMsg
    | some b =>
      let bg := RenderDevice.create_bind_group bloom_upsampling_bind_group_label
        pipeline.bind_group_layout tex.view s b
      (buildBindGroups pipeline s uniforms rest).map
        (fun out => (entity, { upsampling_bind_group := bg, sampler := s }) :: out)

/-- Shallow embedding of `prepare_upsampling_bind_groups`: creates one
sampler, then builds one bind group per queried view. -/
def prepare_upsampling_bind_groups (device : RenderDevice)
    (pipeline : UpsamplingPipeline)
    (views : List (Entity × VolumetricFogTexture))
    (uniforms : ComponentUniforms) :
    Except String (List (Entity × UpsamplingBindGroup) × RenderDevice) :=
  let sd := device.create_sampler upsamplingSamplerDescriptor
  (buildBindGroups pipeline sd.1 uniforms views).map (fun out => (out, sd.2))

/-! ### Render pipeline descriptor model -/

/-- Blend factor (`wgpu::BlendFactor`), the variants relevant here plus
neighbours for meaningful inequality. -/
inductive BlendFactor
  | Zero
  | One
  | Src
  | OneMinusSrc
  | SrcAlpha
  | OneMinusSrcAlpha
  | Dst
  | OneMinusDst
  | DstAlpha
  | OneMinusDstAlpha
  | Constant
deriving DecidableEq, Repr

/-- Blend operation (`wgpu::BlendOperation`). -/
inductive BlendOperation
  | Add
  | Subtract
  | ReverseSubtract
  | Min
  | Max
deriving DecidableEq, Repr

/-- One blend equation: `src * src_factor (op) dst * dst_factor`. -/
structure BlendComponent where
  src_factor : BlendFactor
  dst_factor : BlendFactor
  operation : BlendOperation
deriving DecidableEq, Repr

/-- Per-target blend state: color and alpha equations. -/
structure BlendState where
  color : BlendComponent
  alpha : BlendComponent
deriving DecidableEq, Repr

/-- Texture format, kept opaque (identified by a tag). -/
structure TextureFormat where
  id : Nat
deriving DecidableEq, Repr

/-- Modelled from the spec: the "fog intermediate format", the constant
`FOG_TEXTURE_FORMAT` defined in the sibling `render.rs` module. -/
def FOG_TEXTURE_FORMAT : TextureFormat := { id := 0 }

/-- Color write mask bitflags (`wgpu::ColorWrites`). -/
structure ColorWrites where
  bits : Nat
deriving DecidableEq, Repr

/-- All four channels enabled (RED, GREEN, BLUE, ALPHA). -/
def ColorWrites.ALL : ColorWrites := { bits := 15 }

/-- One color target of the fragment stage. -/
structure ColorTargetState where
  format : TextureFormat
  blend : Option BlendState
  write_mask : ColorWrites
deriving DecidableEq, Repr

/-- A weak asset handle (`bevy_asset::Handle<Shader>`), identified by its
128-bit UUID. -/
structure Handle where
  id : Nat
deriving DecidableEq, Repr

/-- Embedding of `Handle::weak_from_u128`. -/
def Handle.weak_from_u128 (n : Nat) : Handle := { id := n % 2 ^ 128 }

/-- The fixed content-derived shader reference of the upsampling shader. -/
def FOG_UPSCALING_SHADER_HANDLE : Handle :=
  Handle.weak_from_u128 0x14b0e0d8dbeb82cf729f6cc293554932

/-- Fragment stage description. -/
structure FragmentState where
  shader : Handle
  shader_defs : List String
  entry_point : String
  targets : List (Option ColorTargetState)
deriving DecidableEq, Repr

/-- Vertex stage description. -/
structure VertexState where
  shader : Handle
  entry_point : String
deriving DecidableEq, Repr

/-- Modelled from the spec: the "fullscreen-triangle vertex stage (external
shared utility)" of `bevy_core_pipeline::fullscreen_vertex_shader`, a fixed
shared vertex state with its own stable shader reference. -/
def FULLSCREEN_SHADER_HANDLE : Handle := Handle.weak_from_u128 7837534426033940724

def fullscreen_vertex_entry_point : String := "fullscreen_vertex_shader"

/-- Embedding of `fullscreen_shader_vertex_state()` from `bevy_core_pipeline`. -/
def fullscreen_shader_vertex_state : VertexState :=
  { shader := FULLSCREEN_SHADER_HANDLE, entry_point := fullscreen_vertex_entry_point }

/-- Primitive assembly state (`wgpu::PrimitiveTopology` and friends);
only the topology is observed. -/
inductive PrimitiveTopology
  | PointList
  | LineList
  | LineStrip
  | TriangleList
  | TriangleStrip
deriving DecidableEq, Repr

structure PrimitiveState where
  topology : PrimitiveTopology
deriving DecidableEq, Repr

/-- Embedding of `PrimitiveState::default()`: triangle-list topology. -/
def PrimitiveState.default : PrimitiveState := { topology := PrimitiveTopology.TriangleList }

/-- Multisample state (`wgpu::MultisampleState`). -/
structure MultisampleState where
  count : Nat
  mask : Nat
  alpha_to_coverage_enabled : Bool
deriving DecidableEq, Repr

/-- Embedding of `MultisampleState::default()`: one sample, full mask, no
alpha-to-coverage. -/
def MultisampleState.default : MultisampleState :=
  { count := 1, mask := 2 ^ 64 - 1, alpha_to_coverage_enabled := false }

/-- Depth/stencil attachment state, kept opaque: the descriptor under study
never carries one. -/
structure DepthStencilState where
  id : Nat
deriving DecidableEq, Repr

/-- Push-constant range, kept opaque: the descriptor under study has none. -/
structure PushConstantRange where
  id : Nat
deriving DecidableEq, Repr

/-- Render pipeline descriptor (`bevy_render::render_resource`), restricted
to the fields the source sets and the claims observe. -/
structure RenderPipelineDescriptor where
  label : Option String
  layout : List BindGroupLayout
  vertex : VertexState
  fragment : Option FragmentState
  primitive : PrimitiveState
  depth_stencil : Option DepthStencilState
  multisample : MultisampleState
  push_constant_ranges : List PushConstantRange
deriving DecidableEq, Repr

/-- The pipeline key type: "Currently has exactly one inhabitant". -/
structure FogUpsamplingPipelineKeys where
deriving DecidableEq, Repr

def fog_upsampling_pipeline_label : String := "fog_upsampling_pipeline"

def upsample_entry_point : String := "upsample"

/-- The additive-blend color equation of the upsampling target:
`src * constant + dst * 1`. -/
def upsamplingColorBlend : BlendComponent :=
  { src_factor := BlendFactor.Constant
    dst_factor := BlendFactor.One
    operation := BlendOperation.Add }

/-- The alpha equation of the upsampling target: `src * 0 + dst * 1`. -/
def upsamplingAlphaBlend : BlendComponent :=
  { src_factor := BlendFactor.Zero
    dst_factor := BlendFactor.One
    operation := BlendOperation.Add }

/-- The single color target of the upsampling pipeline. -/
def upsamplingColorTarget : ColorTargetState :=
  { format := FOG_TEXTURE_FORMAT
    blend := some { color := upsamplingColorBlend, alpha := upsamplingAlphaBlend }
    write_mask := ColorWrites.ALL }

/-- Shallow embedding of
`<UpsamplingPipeline as SpecializedRenderPipeline>::specialize`. -/
def UpsamplingPipeline.specialize (self : UpsamplingPipeline)
    (_key : FogUpsamplingPipelineKeys) : RenderPipelineDescriptor :=
  { label := some fog_upsampling_pipeline_label
    layout := [self.bind_group_layout]
    vertex := fullscreen_shader_vertex_state
    fragment := some
      { shader := FOG_UPSCALING_SHADER_HANDLE
        shader_defs := []
        entry_point := upsample_entry_point
        targets := [some upsamplingColorTarget] }
    primitive := PrimitiveState.default
    depth_stencil := none
    multisample := MultisampleState.default
    push_constant_ranges := [] }

/-! ### Pipeline variant cache -/

/-- A stable handle into the pipeline cache: the queue index of the
descriptor. -/
abbrev CachedRenderPipelineId := Nat

/-- Modelled from the spec: the process-wide `PipelineCache` into which
specialized descriptors are queued; a `PipelineHandle` is "an opaque
reference into a process-wide pipeline cache". -/
structure PipelineCache where
  queued : List RenderPipelineDescriptor
deriving DecidableEq, Repr

/-- Association-list lookup by decidable key equality (the hash-map of the
cache). -/
def lookupKey {K : Type} [DecidableEq K] (k : K) :
    List (K × CachedRenderPipelineId) → Option CachedRenderPipelineId
  | [] => none
  | (k2, v) :: rest => if k = k2 then some v else lookupKey k rest

/-- Modelled from the spec: "PipelineVariantCache: lazily builds/memoizes a
specialized pipeline descriptor keyed by a variation key; returns a stable
handle", with the "build-count counter" of Scenario D made explicit. -/
structure SpecializedRenderPipelines (K : Type) where
  cache : List (K × CachedRenderPipelineId)
  build_count : Nat
deriving Repr

/-- Modelled from the spec: `SpecializedRenderPipelines::specialize` — "On
first request for a key, builds a pipeline descriptor ... Subsequent requests
with an equal key return the previously built handle (memoization by key
equality/hash) rather than rebuilding."  `build` is the underlying
`SpecializedRenderPipeline::specialize` of the pipeline resource. -/
def SpecializedRenderPipelines.specialize {K : Type} [DecidableEq K]
    (self : SpecializedRenderPipelines K) (build : K → RenderPipelineDescriptor)
    (cache : PipelineCache) (key : K) :
    CachedRenderPipelineId × SpecializedRenderPipelines K × PipelineCache :=
  match lookupKey key self.cache with
  | some id => (id, self, cache)
  | none =>
    let id := cache.queued.length
    (id, { cache := (key, id) :: self.cache, build_count := self.build_count + 1 },
      { queued := cache.queued ++ [build key] })

/-- The per-view component recording the assigned pipeline handle. -/
structure UpsamplingPipelineIds where
  id_final : CachedRenderPipelineId
deriving DecidableEq, Repr

/-- Shallow embedding of `prepare_upsampling_pipeline`: for every view
carrying `VolumetricFog`, request the (constant-key) specialized pipeline and
insert its handle. -/
def prepare_upsampling_pipeline (cache : PipelineCache)
    (pipelines : SpecializedRenderPipelines FogUpsamplingPipelineKeys)
    (pipeline : UpsamplingPipeline) :
    List (Entity × VolumetricFog) →
      List (Entity × UpsamplingPipelineIds) ×
        SpecializedRenderPipelines FogUpsamplingPipelineKeys × PipelineCache
  | [] => ([], pipelines, cache)
  | (entity, _) :: rest =>
    let r1 := pipelines.specialize pipeline.specialize cache FogUpsamplingPipelineKeys.mk
    let r2 := prepare_upsampling_pipeline r1.2.2 r1.2.1 pipeline rest
    ((entity, { id_final := r1.1 }) :: r2.1, r2.2.1, r2.2.2)

/-! ### Per-frame composition -/

/-- The render-world views kept by extraction this frame: entity together
with the extracted `(VolumetricFog, UpsamplingUniforms)` output. -/
def extractedViews (cams : List (Entity × VolumetricFog × Camera)) :
    List (Entity × VolumetricFog × UpsamplingUniforms) :=
  cams.filterMap (fun v =>
    (Option.join (Except.toOption (extract_component v.2.1 v.2.2))).map
      (fun out => (v.1, out.1, out.2)))

/-- Modelled from the spec: per the frame control flow, the upstream
fog-rendering pass (external, `render.rs`) attaches a `VolumetricFogTexture`
to exactly the render-world views kept by extraction. -/
def fogTextureViews (extracted : List (Entity × VolumetricFog × UpsamplingUniforms)) :
    List (Entity × VolumetricFogTexture) :=
  extracted.map (fun v => (v.1, { view := v.1 }))

/-- One frame of bind-group preparation: extraction followed by
`prepare_upsampling_bind_groups` over the views holding a fog texture. -/
def frameBindGroups (device : RenderDevice) (pipeline : UpsamplingPipeline)
    (cams : List (Entity × VolumetricFog × Camera)) (uniforms : ComponentUniforms) :
    Except String (List (Entity × UpsamplingBindGroup) × RenderDevice) :=
  prepare_upsampling_bind_groups device pipeline
    (fogTextureViews (extractedViews cams)) uniforms

/-! ### Concrete fixtures for witnesses -/

/-- A concrete active HDR view with a 1920×1080 viewport (Scenario A). -/
def camera1920 : Camera :=
  { physical_viewport_rect := some { min := { x := 0, y := 0 }, max := { x := 1920, y := 1080 } }
    physical_viewport_size := some { x := 1920, y := 1080 }
    physical_target_size := some { x := 1920, y := 1080 }
    is_active := true
    hdr := true }

/-- A view equal to `camera1920` except for the viewport origin and the
target framebuffer size value. -/
def camera1920shifted : Camera :=
  { physical_viewport_rect := some { min := { x := 10, y := 20 }, max := { x := 1930, y := 1100 } }
    physical_viewport_size := some { x := 1920, y := 1080 }
    physical_target_size := some { x := 3840, y := 2160 }
    is_active := true
    hdr := true }

/-- A view equal to `camera1920` except that it is inactive (Scenario B). -/
def cameraInactive : Camera :=
  { physical_viewport_rect := some { min := { x := 0, y := 0 }, max := { x := 1920, y := 1080 } }
    physical_viewport_size := some { x := 1920, y := 1080 }
    physical_target_size := some { x := 1920, y := 1080 }
    is_active := false
    hdr := true }

/-- A fresh render device. -/
def sampleDevice : RenderDevice := { next_sampler_id := 0 }

/-- The sampler `sampleDevice` creates first. -/
def sampleSampler : Sampler := { id := 0, descriptor := upsamplingSamplerDescriptor }

/-- The bind group built for a view whose fog-texture view handle is 5,
using `sampleSampler` and uniform binding 0. -/
def sampleBG : UpsamplingBindGroup :=
  { upsampling_bind_group := RenderDevice.create_bind_group
      bloom_upsampling_bind_group_label UpsamplingPipeline.from_world.bind_group_layout
      5 sampleSampler { id := 0 }
    sampler := sampleSampler }

/-- An empty pipeline-variant cache state. -/
def samplePipelines : SpecializedRenderPipelines FogUpsamplingPipelineKeys :=
  { cache := [], build_count := 0 }

/-- An empty pipeline cache. -/
def sampleCache : PipelineCache := { queued := [] }

/-! ### Helper lemmas about extraction -/

theorem extract_component_eligible (f : VolumetricFog) (r : URect) (s t : UVec2)
    (hx : s.x ≠ 0) (hy : s.y ≠ 0) :
    extract_component f ⟨some r, some s, some t, true, true⟩ =
      Except.ok (some (f, { aspect := (s.x : ℚ) / s.y })) := by
  simp [extract_component, AspectRatio.try_from_pixels, hx, hy]

theorem extract_component_not_eligible (f : VolumetricFog) (c : Camera)
    (h : ¬ spec_eligible c) : extract_component f c = Except.ok none := by
  obtain ⟨rect, size, target, active, hdr⟩ := c
  rcases rect with _ | r <;> rcases size with _ | s <;> rcases target with _ | t <;>
    rcases active <;> rcases hdr <;>
    simp [extract_component, spec_eligible, AspectRatio.try_from_pixels] at h ⊢ <;>
    omega

theorem extract_component_ok_some (f fog : VolumetricFog) (c : Camera)
    (u : UpsamplingUniforms)
    (hout : extract_component f c = Except.ok (some (fog, u))) :
    fog = f ∧ ∃ s, c.physical_viewport_size = some s ∧ s.x ≠ 0 ∧ s.y ≠ 0 ∧
      u.aspect = (s.x : ℚ) / s.y := by
  by_cases h : spec_eligible c
  · obtain ⟨hrect, ⟨s, hs, hx, hy⟩, htarget, hactive, hhdr⟩ := h
    obtain ⟨r, hr⟩ := Option.isSome_iff_exists.mp hrect
    obtain ⟨t, ht⟩ := Option.isSome_iff_exists.mp htarget
    have hc : c = ⟨some r, some s, some t, true, true⟩ := by
      obtain ⟨rect, size, target, active, hdr⟩ := c
      simp only at hr hs ht hactive hhdr
      rw [hr, hs, ht, hactive, hhdr]
    rw [hc, extract_component_eligible f r s t (Nat.pos_iff_ne_zero.mp hx)
      (Nat.pos_iff_ne_zero.mp hy)] at hout
    have h1 : (f, ({ aspect := (s.x : ℚ) / s.y } : UpsamplingUniforms)) = (fog, u) :=
      Option.some.inj (Except.ok.inj hout)
    have hf : f = fog := congrArg Prod.fst h1
    have hu : ({ aspect := (s.x : ℚ) / s.y } : UpsamplingUniforms) = u :=
      congrArg Prod.snd h1
    exact ⟨hf.symm, s, hs, Nat.pos_iff_ne_zero.mp hx, Nat.pos_iff_ne_zero.mp hy,
      by rw [← hu]⟩
  · rw [extract_component_not_eligible f c h] at hout
    exact Option.noConfusion (Except.ok.inj hout)

theorem extract_component_never_panics (f : VolumetricFog) (c : Camera) :
    ∃ r, extract_component f c = Except.ok r := by
  obtain ⟨rect, size, target, active, hdr⟩ := c
  rcases rect with _ | r <;> rcases size with _ | s <;> rcases target with _ | t <;>
    rcases active <;> rcases hdr <;>
    simp [extract_component, AspectRatio.try_from_pixels] <;>
    by_cases hx : s.x = 0 <;> by_cases hy : s.y = 0 <;> simp [hx, hy]

/-- C1: `extract_component` returns `Some` iff the view reports a non-null
viewport rectangle, a non-null viewport size with both dimensions strictly
positive, a non-null target framebuffer size, `active = true` and
`hdr = true`; in every other case it returns `None` as a normal outcome
(`ok none`), not an error. -/
theorem c1_extract_some_iff_eligible (f : VolumetricFog) (c : Camera) :
    ((∃ out, extract_component f c = Except.ok (some out)) ↔ spec_eligible c) ∧
      (¬ spec_eligible c → extract_component f c = Except.ok none) := by
  refine ⟨⟨?_, ?_⟩, extract_component_not_eligible f c⟩
  · rintro ⟨out, hout⟩
    by_contra h
    rw [extract_component_not_eligible f c h] at hout
    exact Option.noConfusion (Except.ok.inj hout)
  · rintro ⟨hrect, ⟨s, hs, hx, hy⟩, htarget, hactive, hhdr⟩
    obtain ⟨r, hr⟩ := Option.isSome_iff_exists.mp hrect
    obtain ⟨t, ht⟩ := Option.isSome_iff_exists.mp htarget
    have hc : c = ⟨some r, some s, some t, true, true⟩ := by
      obtain ⟨rect, size, target, active, hdr⟩ := c
      simp only at hr hs ht hactive hhdr
      rw [hr, hs, ht, hactive, hhdr]
    refine ⟨(f, { aspect := (s.x : ℚ) / s.y }), ?_⟩
    rw [hc]
    exact extract_component_eligible f r s t (Nat.pos_iff_ne_zero.mp hx)
      (Nat.pos_iff_ne_zero.mp hy)

/-- C1 witness: at the concrete 1920×1080 active HDR view, eligibility holds
and extraction indeed returns `some`. -/
theorem c1_witness : ∃ out, extract_component ⟨0⟩ camera1920 = Except.ok (some out) :=
  (c1_extract_some_iff_eligible ⟨0⟩ camera1920).1.mpr
    ⟨rfl, ⟨⟨1920, 1080⟩, rfl, by decide, by decide⟩, rfl, rfl, rfl⟩

/-- C6: for every eligible view the extracted aspect equals viewport width
divided by viewport height (exactly, hence within the 1e-6 tolerance); and
for a 1920×1080 active HDR viewport extraction returns `some` with aspect
within 1e-5 of 1.77778. -/
theorem c6_aspect_ratio :
    (∀ (f fog : VolumetricFog) (c : Camera) (u : UpsamplingUniforms) (s : UVec2),
        extract_component f c = Except.ok (some (fog, u)) →
        c.physical_viewport_size = some s →
        |u.aspect - (s.x : ℚ) / s.y| < 1 / 1000000) ∧
      ∀ f : VolumetricFog, ∃ u : UpsamplingUniforms,
        extract_component f camera1920 = Except.ok (some (f, u)) ∧
          |u.aspect - 177778 / 100000| < 1 / 100000 := by
  constructor
  · intro f fog c u s hout hs
    obtain ⟨-, s2, hs2, -, -, hu⟩ := extract_component_ok_some f fog c u hout
    have hss : s = s2 := Option.some.inj (hs.symm.trans hs2)
    rw [hu, hss, sub_self, abs_zero]
    norm_num
  · intro f
    refine ⟨{ aspect := (1920 : ℚ) / 1080 }, ?_, ?_⟩
    · exact extract_component_eligible f _ ⟨1920, 1080⟩ _ (by decide) (by decide)
    · rw [abs_sub_lt_iff]
      constructor <;> norm_num

/-- C6 witness: instantiating the general bound at the 1920×1080 view. -/
theorem c6_witness :
    |((1920 : ℚ) / 1080 : ℚ) - (1920 : ℚ) / 1080| < 1 / 1000000 :=
  c6_aspect_ratio.1 ⟨0⟩ ⟨0⟩ camera1920 { aspect := (1920 : ℚ) / 1080 } ⟨1920, 1080⟩
    (extract_component_eligible ⟨0⟩ _ _ _ (by decide) (by decide)) rfl

/-- C7: the failure branch of the aspect-ratio computation (the `expect`)
is unreachable — extraction returns `ok` on every input — and a view whose
viewport size has a zero dimension, such as (0, 1080), is filtered to
`none` before any division. -/
theorem c7_guarded_division :
    (∀ (f : VolumetricFog) (c : Camera), ∃ r, extract_component f c = Except.ok r) ∧
      ∀ (f : VolumetricFog) (rect : Option URect) (t : Option UVec2) (a b : Bool),
        extract_component f ⟨rect, some ⟨0, 1080⟩, t, a, b⟩ = Except.ok none := by
  refine ⟨extract_component_never_panics, ?_⟩
  intro f rect t a b
  rcases rect with _ | r <;> rcases t with _ | t0 <;> rcases a <;> rcases b <;>
    simp [extract_component]

/-- C9: extraction passes the fog settings component through unchanged: the
`VolumetricFog` value inside a `some` output is the input component. -/
theorem c9_fog_passthrough (f fog : VolumetricFog) (c : Camera) (u : UpsamplingUniforms)
    (hout : extract_component f c = Except.ok (some (fog, u))) : fog = f :=
  (extract_component_ok_some f fog c u hout).1

/-- C9 witness: at the 1920×1080 view the extracted fog settings equal the
input. -/
theorem c9_witness : (⟨7⟩ : VolumetricFog) = ⟨7⟩ :=
  c9_fog_passthrough ⟨7⟩ ⟨7⟩ camera1920 { aspect := (1920 : ℚ) / 1080 }
    (extract_component_eligible ⟨7⟩ _ _ _ (by decide) (by decide))

/-- C10: the extraction outcome depends only on the viewport size, the two
flags, and the presence (not the values) of the viewport rectangle and the
target size: two views agreeing on those produce identical outputs. -/
theorem c10_noninterference (f : VolumetricFog) (c1 c2 : Camera)
    (hsize : c1.physical_viewport_size = c2.physical_viewport_size)
    (hactive : c1.is_active = c2.is_active)
    (hhdr : c1.hdr = c2.hdr)
    (hrect : c1.physical_viewport_rect.isSome = c2.physical_viewport_rect.isSome)
    (htarget : c1.physical_target_size.isSome = c2.physical_target_size.isSome) :
    extract_component f c1 = extract_component f c2 := by
  obtain ⟨r1, s1, t1, a1, b1⟩ := c1
  obtain ⟨r2, s2, t2, a2, b2⟩ := c2
  simp only at hsize hactive hhdr hrect htarget
  subst hsize hactive hhdr
  rcases r1 with _ | r1 <;> rcases r2 with _ | r2 <;> simp only [Option.isSome] at hrect <;>
    rcases t1 with _ | t1 <;> rcases t2 with _ | t2 <;> simp only [Option.isSome] at htarget <;>
    first
    | exact Bool.noConfusion hrect
    | exact Bool.noConfusion htarget
    | (rcases s1 with _ | s <;> rcases a1 <;> rcases b1 <;> simp [extract_component])

/-- C10 witness: shifting the viewport origin and changing the target-size
value leaves the extraction output unchanged. -/
theorem c10_witness :
    extract_component ⟨0⟩ camera1920 = extract_component ⟨0⟩ camera1920shifted :=
  c10_noninterference ⟨0⟩ camera1920 camera1920shifted rfl rfl rfl rfl rfl

/-- C4: for every pipeline resource and key, `specialize` produces a
descriptor with the fullscreen-triangle vertex stage, a fragment stage with
entry point "upsample" on the fixed shader handle, exactly one color target
in the fog intermediate format with additive blending (color
`src * constant + dst * 1`, alpha `src * 0 + dst * 1`, all channels
written), no depth/stencil attachment, default primitive and multisample
state, and no push-constant ranges. -/
theorem c4_descriptor_fields (p : UpsamplingPipeline) (k : FogUpsamplingPipelineKeys) :
    (p.specialize k).vertex = fullscreen_shader_vertex_state ∧
      (p.specialize k).fragment = some
        { shader := FOG_UPSCALING_SHADER_HANDLE
          shader_defs := []
          entry_point := upsample_entry_point
          targets := [some upsamplingColorTarget] } ∧
      upsamplingColorTarget.format = FOG_TEXTURE_FORMAT ∧
      upsamplingColorTarget.blend = some
        { color := { src_factor := BlendFactor.Constant, dst_factor := BlendFactor.One, operation := BlendOperation.Add }
          alpha := { src_factor := BlendFactor.Zero, dst_factor := BlendFactor.One, operation := BlendOperation.Add } } ∧
      upsamplingColorTarget.write_mask = ColorWrites.ALL ∧
      (p.specialize k).depth_stencil = none ∧
      (p.specialize k).primitive = PrimitiveState.default ∧
      (p.specialize k).multisample = MultisampleState.default ∧
      (p.specialize k).push_constant_ranges = [] :=
  ⟨rfl, rfl, rfl, rfl, rfl, rfl, rfl, rfl, rfl⟩

/-- C5: when the uniform binding cannot be resolved and at least one view
awaits bind-group construction, preparation aborts with the unwrap panic
(`Except.error`) instead of skipping or masking the view. -/
theorem c5_missing_binding_panics (device : RenderDevice) (pipeline : UpsamplingPipeline)
    (v : Entity × VolumetricFogTexture) (rest : List (Entity × VolumetricFogTexture)) :
    prepare_upsampling_bind_groups device pipeline (v :: rest) { binding := none } =
      Except.error unwrapNoneMsg := by
  obtain ⟨e, t⟩ := v
  rfl

theorem buildBindGroups_sampler (pipeline : UpsamplingPipeline) (s : Sampler)
    (uniforms : ComponentUniforms) (l : List (Entity × VolumetricFogTexture)) :
    ∀ out : List (Entity × UpsamplingBindGroup),
      buildBindGroups pipeline s uniforms l = Except.ok out →
      ∀ e bg, (e, bg) ∈ out →
        bg.sampler = s ∧ bg.upsampling_bind_group.sampler_entry = s := by
  induction l with
  | nil =>
    intro out h e bg hmem
    obtain rfl : ([] : List (Entity × UpsamplingBindGroup)) = out := Except.ok.inj h
    simp at hmem
  | cons v rest ih =>
    intro out h e bg hmem
    obtain ⟨e0, t0⟩ := v
    rcases hb : uniforms.binding with _ | b <;>
      rcases hrest : buildBindGroups pipeline s uniforms rest with msg | out2 <;>
      simp [buildBindGroups, hb, hrest, Except.map] at h
    subst h
    rcases List.mem_cons.mp hmem with h1 | h1
    · injection h1 with h1a h1b
      subst h1b
      exact ⟨rfl, rfl⟩
    · exact ih out2 hrest e bg h1

/-- C8: exactly one sampler is created per frame — the device's sampler
count advances by one regardless of the number of views — configured with
linear min/mag filtering and clamp-to-edge addressing on both axes, and
every bind group built that frame references that single sampler. -/
theorem c8_single_shared_sampler (device : RenderDevice) (pipeline : UpsamplingPipeline)
    (views : List (Entity × VolumetricFogTexture)) (uniforms : ComponentUniforms)
    (out : List (Entity × UpsamplingBindGroup)) (device2 : RenderDevice)
    (hok : prepare_upsampling_bind_groups device pipeline views uniforms =
      Except.ok (out, device2)) :
    device2.next_sampler_id = device.next_sampler_id + 1 ∧
      upsamplingSamplerDescriptor.min_filter = FilterMode.Linear ∧
      upsamplingSamplerDescriptor.mag_filter = FilterMode.Linear ∧
      upsamplingSamplerDescriptor.address_mode_u = AddressMode.ClampToEdge ∧
      upsamplingSamplerDescriptor.address_mode_v = AddressMode.ClampToEdge ∧
      ∀ e bg, (e, bg) ∈ out →
        bg.sampler = { id := device.next_sampler_id, descriptor := upsamplingSamplerDescriptor } ∧
        bg.upsampling_bind_group.sampler_entry =
          { id := device.next_sampler_id, descriptor := upsamplingSamplerDescriptor } := by
  simp only [prepare_upsampling_bind_groups, RenderDevice.create_sampler] at hok
  rcases hb : buildBindGroups pipeline
      { id := device.next_sampler_id, descriptor := upsamplingSamplerDescriptor }
      uniforms views with msg | out2 <;>
    rw [hb] at hok <;> simp [Except.map] at hok
  obtain ⟨rfl, rfl⟩ := hok
  exact ⟨rfl, rfl, rfl, rfl, rfl, buildBindGroups_sampler pipeline _ uniforms views out2 hb⟩

theorem toOption_join_eq_some (r : Except String (Option (VolumetricFog × UpsamplingUniforms)))
    (o : VolumetricFog × UpsamplingUniforms) :
    Option.join (Except.toOption r) = some o ↔ r = Except.ok (some o) := by
  rcases r with msg | o2
  · simp [Except.toOption]
  · rcases o2 with _ | o3 <;> simp [Except.toOption]

theorem buildBindGroups_some (pipeline : UpsamplingPipeline) (s : Sampler) (b : BufferBinding)
    (l : List (Entity × VolumetricFogTexture)) :
    buildBindGroups pipeline s { binding := some b } l =
      Except.ok (l.map (fun v =>
        (v.1, { upsampling_bind_group := RenderDevice.create_bind_group
                  bloom_upsampling_bind_group_label pipeline.bind_group_layout v.2.view s b
                sampler := s }))) := by
  induction l with
  | nil => rfl
  | cons v rest ih =>
    obtain ⟨e0, t0⟩ := v
    simp [buildBindGroups, ih, Except.map]

theorem mem_extractedViews_fst (cams : List (Entity × VolumetricFog × Camera)) (e : Entity) :
    e ∈ (extractedViews cams).map Prod.fst ↔
      ∃ v ∈ cams, v.1 = e ∧ ∃ o, extract_component v.2.1 v.2.2 = Except.ok (some o) := by
  rw [List.mem_map]
  constructor
  · rintro ⟨y, hy, rfl⟩
    obtain ⟨v, hv, hg⟩ := List.mem_filterMap.mp hy
    obtain ⟨o, ho, rfl⟩ := Option.map_eq_some'.mp hg
    exact ⟨v, hv, rfl, o, (toOption_join_eq_some _ o).mp ho⟩
  · rintro ⟨v, hv, rfl, o, ho⟩
    refine ⟨(v.1, o.1, o.2), List.mem_filterMap.mpr ⟨v, hv, ?_⟩, rfl⟩
    show (Option.join (Except.toOption (extract_component v.2.1 v.2.2))).map
      (fun out => (v.1, out.1, out.2)) = some (v.1, o.1, o.2)
    rw [(toOption_join_eq_some _ o).mpr ho]
    rfl

/-- C2: within a frame, a bind group is inserted for a view if and only if
that view passed the extraction filter this frame (the uniform binding being
available, per the frame's ordering guarantees): preparation succeeds, its
output ranges over exactly the extracted entities, and an entity carries a
bind group iff its extraction returned `some`. -/
theorem c2_bind_group_iff_eligible (device : RenderDevice) (pipeline : UpsamplingPipeline)
    (cams : List (Entity × VolumetricFog × Camera)) (b : BufferBinding) :
    ∃ out device2,
      frameBindGroups device pipeline cams { binding := some b } =
          Except.ok (out, device2) ∧
        out.map Prod.fst = (extractedViews cams).map Prod.fst ∧
        ∀ e : Entity, (e ∈ out.map Prod.fst ↔
          ∃ v ∈ cams, v.1 = e ∧ ∃ o, extract_component v.2.1 v.2.2 = Except.ok (some o)) := by
  rw [frameBindGroups, prepare_upsampling_bind_groups,
    buildBindGroups_some pipeline _ b (fogTextureViews (extractedViews cams))]
  refine ⟨_, _, rfl, ?_, ?_⟩
  · rw [fogTextureViews, List.map_map, List.map_map]
    rfl
  · intro e
    rw [fogTextureViews, List.map_map, List.map_map]
    exact mem_extractedViews_fst cams e

theorem specialize_lookup_hit {K : Type} [DecidableEq K] (s : SpecializedRenderPipelines K)
    (build : K → RenderPipelineDescriptor) (cache : PipelineCache) (k : K)
    (i : CachedRenderPipelineId) (h : lookupKey k s.cache = some i) :
    s.specialize build cache k = (i, s, cache) := by
  rw [SpecializedRenderPipelines.specialize, h]

theorem specialize_lookup_after {K : Type} [DecidableEq K] (s : SpecializedRenderPipelines K)
    (build : K → RenderPipelineDescriptor) (cache : PipelineCache) (k : K) :
    lookupKey k (s.specialize build cache k).2.1.cache =
      some (s.specialize build cache k).1 := by
  rcases h : lookupKey k s.cache with _ | i
  · simp [SpecializedRenderPipelines.specialize, h, lookupKey]
  · simp [SpecializedRenderPipelines.specialize, h]

theorem prepare_pipeline_ids_of_cached (pipeline : UpsamplingPipeline)
    (i : CachedRenderPipelineId) (views : List (Entity × VolumetricFog)) :
    ∀ (cache : PipelineCache) (ps : SpecializedRenderPipelines FogUpsamplingPipelineKeys),
      lookupKey FogUpsamplingPipelineKeys.mk ps.cache = some i →
      ∀ p ∈ (prepare_upsampling_pipeline cache ps pipeline views).1, p.2.id_final = i := by
  induction views with
  | nil =>
    intro cache ps h p hp
    simp [prepare_upsampling_pipeline] at hp
  | cons v rest ih =>
    intro cache ps h p hp
    obtain ⟨e0, f0⟩ := v
    simp only [prepare_upsampling_pipeline,
      specialize_lookup_hit ps pipeline.specialize cache FogUpsamplingPipelineKeys.mk i h] at hp
    rcases List.mem_cons.mp hp with h1 | h1
    · rw [h1]
    · exact ih cache ps h p h1

/-- C3: the pipeline cache memoizes by key — a second `specialize` with an
equal key returns the first call's handle and leaves the build count
unchanged (for an arbitrary decidable key type) — and, the key type having
exactly one inhabitant, every view prepared in a frame receives the
identical cached handle. -/
theorem c3_specialize_memoized :
    (∀ (K : Type) [DecidableEq K], ∀ (s : SpecializedRenderPipelines K)
        (build : K → RenderPipelineDescriptor) (cache : PipelineCache) (k : K),
        ((s.specialize build cache k).2.1.specialize build
              (s.specialize build cache k).2.2 k).1 =
            (s.specialize build cache k).1 ∧
          ((s.specialize build cache k).2.1.specialize build
                (s.specialize build cache k).2.2 k).2.1.build_count =
            (s.specialize build cache k).2.1.build_count) ∧
      ∀ (cache : PipelineCache) (ps : SpecializedRenderPipelines FogUpsamplingPipelineKeys)
        (pipeline : UpsamplingPipeline) (views : List (Entity × VolumetricFog))
        (e1 e2 : Entity) (i1 i2 : UpsamplingPipelineIds),
        (e1, i1) ∈ (prepare_upsampling_pipeline cache ps pipeline views).1 →
        (e2, i2) ∈ (prepare_upsampling_pipeline cache ps pipeline views).1 →
        i1 = i2 := by
  constructor
  · intro K inst s build cache k
    rw [specialize_lookup_hit _ build _ k _ (specialize_lookup_after s build cache k)]
    exact ⟨rfl, rfl⟩
  · intro cache ps pipeline views e1 e2 i1 i2 h1 h2
    rcases views with _ | ⟨⟨e0, f0⟩, rest⟩
    · simp [prepare_upsampling_pipeline] at h1
    · have hall : ∀ p ∈ (prepare_upsampling_pipeline cache ps pipeline
          ((e0, f0) :: rest)).1,
          p.2.id_final =
            (ps.specialize pipeline.specialize cache FogUpsamplingPipelineKeys.mk).1 := by
        intro p hp
        simp only [prepare_upsampling_pipeline] at hp
        rcases List.mem_cons.mp hp with hh | hh
        · rw [hh]
        · exact prepare_pipeline_ids_of_cached pipeline _ rest _ _
            (specialize_lookup_after ps pipeline.specialize cache FogUpsamplingPipelineKeys.mk)
            p hh
      have g1 := hall (e1, i1) h1
      have g2 := hall (e2, i2) h2
      obtain ⟨x1⟩ := i1
      obtain ⟨x2⟩ := i2
      simp only at g1 g2
      rw [g1, g2]

/-- C8 witness: one view with fog-texture handle 5 on a fresh device — the
sampler count advances from 0 to 1 and the single bind group references the
one linear clamp-to-edge sampler. -/
theorem c8_witness :
    ({ next_sampler_id := 1 } : RenderDevice).next_sampler_id =
        sampleDevice.next_sampler_id + 1 ∧
      upsamplingSamplerDescriptor.min_filter = FilterMode.Linear ∧
      upsamplingSamplerDescriptor.mag_filter = FilterMode.Linear ∧
      upsamplingSamplerDescriptor.address_mode_u = AddressMode.ClampToEdge ∧
      upsamplingSamplerDescriptor.address_mode_v = AddressMode.ClampToEdge ∧
      ∀ e bg, (e, bg) ∈ [(1, sampleBG)] →
        bg.sampler = { id := sampleDevice.next_sampler_id, descriptor := upsamplingSamplerDescriptor } ∧
        bg.upsampling_bind_group.sampler_entry =
          { id := sampleDevice.next_sampler_id, descriptor := upsamplingSamplerDescriptor } :=
  c8_single_shared_sampler sampleDevice UpsamplingPipeline.from_world [(1, { view := 5 })]
    { binding := some { id := 0 } } [(1, sampleBG)] { next_sampler_id := 1 } (by rfl)

/-- C2 witness: a frame with one eligible view (entity 1) and one inactive
view (entity 2, Scenario B): preparation succeeds and bind groups exist for
exactly the views whose extraction returned `some`. -/
theorem c2_witness :
    ∃ out device2,
      frameBindGroups sampleDevice UpsamplingPipeline.from_world
          [(1, { config := 0 }, camera1920), (2, { config := 0 }, cameraInactive)]
          { binding := some { id := 0 } } =
          Except.ok (out, device2) ∧
        out.map Prod.fst =
          (extractedViews
            [(1, { config := 0 }, camera1920), (2, { config := 0 }, cameraInactive)]).map
            Prod.fst ∧
        ∀ e : Entity, (e ∈ out.map Prod.fst ↔
          ∃ v ∈ [(1, ({ config := 0 } : VolumetricFog), camera1920),
              (2, { config := 0 }, cameraInactive)],
            v.1 = e ∧ ∃ o, extract_component v.2.1 v.2.2 = Except.ok (some o)) :=
  c2_bind_group_iff_eligible sampleDevice UpsamplingPipeline.from_world
    [(1, { config := 0 }, camera1920), (2, { config := 0 }, cameraInactive)] { id := 0 }

/-- C3 witness: two views prepared from empty caches receive the identical
pipeline handle (Scenario D). -/
theorem c3_witness : ({ id_final := 0 } : UpsamplingPipelineIds) = { id_final := 0 } :=
  c3_specialize_memoized.2 sampleCache samplePipelines UpsamplingPipeline.from_world
    [(1, { config := 0 }), (2, { config := 0 })] 1 2 { id_final := 0 } { id_final := 0 }
    (by decide) (by decide)

end VolumetricFogUpsampling
